import Mathlib

/-!
Verification of the data-spy diff computation engine.

The definitions below are a shallow embedding of the repository's source:

* `src/data_spy/table_compare.py` — the `table_compare` class: summary diff,
  column-level diff planning, row-level diff classification;
* `src/data_spy/column_data_test_sql.py` — the test and diff SQL formulas;
* `src/data_spy/schema_compare.py` and `src/data_spy/data_spy.py` — the CLI
  driver and its per-schema method dispatch;
* `src/data_spy/snowflake_utils.py` — scalar query result handling.

SQL scalar values are modelled as `Option ℚ` (`none` is SQL NULL); SQL
expressions that can raise a runtime error (division by zero) return
`Except SqlError`.
-/

namespace DataSpy

/-- Result of evaluating a SQL scalar expression: `none` models SQL NULL. -/
abbrev SqlVal := Option ℚ

/-- Runtime errors a rendered SQL arithmetic expression can raise. -/
inductive SqlError where
  | divByZero
deriving DecidableEq

/-- SQL subtraction: NULL-propagating. -/
def sqlSub : SqlVal → SqlVal → SqlVal
  | some a, some b => some (a - b)
  | _, _ => none

/-- SQL division: NULL operands propagate to NULL; a non-NULL numerator over a
literal zero denominator is a division-by-zero runtime error. -/
def sqlDiv : SqlVal → SqlVal → Except SqlError SqlVal
  | some a, some b => if b = 0 then .error .divByZero else .ok (some (a / b))
  | _, _ => .ok none

/-- SQL NULLIF(a, b): NULL when the two arguments are equal, otherwise the
first argument. -/
def nullif (a b : SqlVal) : SqlVal := if a = b then none else a

/-- SQL ROUND(x, 2): NULL-propagating rounding to two decimal places. -/
def sqlRound2 (a : SqlVal) : SqlVal := a.map (fun x => ((round (x * 100) : ℤ) : ℚ) / 100)

/-- Embeds the delta `((rowcount_dev - rowcount_prod) / rowcount_prod)` rendered
by `table_compare.summary_diff` (table_compare.py line 250): an unguarded SQL
division by the production-side row count. -/
def rowcount_diff (rowcount_dev rowcount_prod : SqlVal) : Except SqlError SqlVal :=
  sqlDiv (sqlSub rowcount_dev rowcount_prod) rowcount_prod

/-- Embeds the delta `((column_count_dev - column_count_prod) / column_count_prod)`
rendered by `table_compare.summary_diff` (table_compare.py line 253): an
unguarded SQL division by the production-side column count. -/
def column_count_diff (column_count_dev column_count_prod : SqlVal) : Except SqlError SqlVal :=
  sqlDiv (sqlSub column_count_dev column_count_prod) column_count_prod

/-- Embeds the delta `((distinct_pkey_dev - distinct_pkey_prod) / distinct_pkey_prod)`
rendered by `table_compare.summary_diff` (table_compare.py line 256): an
unguarded SQL division by the production-side distinct primary-key count. -/
def distinct_pkey_diff (distinct_pkey_dev distinct_pkey_prod : SqlVal) : Except SqlError SqlVal :=
  sqlDiv (sqlSub distinct_pkey_dev distinct_pkey_prod) distinct_pkey_prod

/-- Evaluates the column-level percentage-change diff formula
`ROUND(((({dev} - {prod}) / NULLIF({prod}, 0))),2)` from
`column_data_test_sql.standard_diff_formula` (column_data_test_sql.py line 56)
on the two pivoted side statistics. -/
def standard_diff_eval (dev prod : SqlVal) : Except SqlError SqlVal :=
  (sqlDiv (sqlSub dev prod) (nullif prod (some 0))).map sqlRound2

/-- Semantic data-type bucket used by `table_compare.column_level_diff`: the
value set of `default_datatype_mapping` (table_compare.py lines 303-311),
i.e. the strings "number", "text", "boolean", "timestamp" as a closed type. -/
inductive DataTypeTest where
  | number
  | text
  | boolean
  | timestamp
deriving DecidableEq

/-- Column-level test names, the keys of `tests_to_run` and of
`test_formula_mapping` (table_compare.py lines 325-339). -/
inductive TestName where
  | avg
  | sum
  | min
  | max
  | count_nulls
  | unique
deriving DecidableEq

/-- Which diff formula a planned test uses: `standard_diff_formula` or
`timestamp_diff_formula` from column_data_test_sql.py lines 56-57. -/
inductive DiffFormula where
  | standard
  | timestamp_diff
deriving DecidableEq

/-- Embeds the dict literal `default_datatype_mapping` from
`table_compare.column_level_diff` (table_compare.py lines 303-311); Python dict
subscripting is `List.lookup`, raising KeyError (`none`) on absent keys. -/
def default_datatype_mapping : List (String × DataTypeTest) :=
  [("number", DataTypeTest.number),
   ("float", DataTypeTest.number),
   ("text", DataTypeTest.text),
   ("boolean", DataTypeTest.boolean),
   ("timestamp_ntz", DataTypeTest.timestamp),
   ("timestamp_tz", DataTypeTest.timestamp),
   ("date", DataTypeTest.timestamp)]

/-- Embeds the dict literal `tests_to_run` from `table_compare.column_level_diff`
(table_compare.py lines 325-330), mapping each data-type bucket to its ordered
test bundle. -/
def tests_to_run : DataTypeTest → List TestName
  | DataTypeTest.number => [TestName.avg, TestName.sum, TestName.min, TestName.max, TestName.count_nulls]
  | DataTypeTest.text => [TestName.count_nulls, TestName.unique]
  | DataTypeTest.boolean => [TestName.count_nulls]
  | DataTypeTest.timestamp => [TestName.min, TestName.max]

/-- One planned column-level test: the column, the test name, and which diff
formula the inner loop of `table_compare.column_level_diff` selects for it
(table_compare.py lines 347-367). -/
structure DiffTestSpec where
  column : String
  test : TestName
  diff_formula : DiffFormula
deriving DecidableEq

/-- Python KeyError raised by `default_datatype_mapping[...]` on a raw type
absent from the mapping (table_compare.py line 344). -/
inductive UnknownTypeError where
  | keyError (raw_type : String)
deriving DecidableEq

/-- Builds the specs the inner loop of `table_compare.column_level_diff`
produces for one candidate column (table_compare.py lines 342-367): look the
raw type up in `default_datatype_mapping` (KeyError aborts), then emit one spec
per test of the bundle, choosing `timestamp_diff_formula` exactly when the
bucket is "timestamp" and the test is "min" or "max". -/
def specs_for_column (column raw_type : String) : Except UnknownTypeError (List DiffTestSpec) :=
  match default_datatype_mapping.lookup raw_type with
  | none => Except.error (UnknownTypeError.keyError raw_type)
  | some cls => Except.ok ((tests_to_run cls).map (fun t =>
      ⟨column, t,
        if cls = DataTypeTest.timestamp ∧ (t = TestName.min ∨ t = TestName.max)
        then DiffFormula.timestamp_diff else DiffFormula.standard⟩))

/-- Runs `specs_for_column` over the candidate columns in order, concatenating
the results; the first KeyError aborts the whole table's column-level diff,
mirroring the main loop of `table_compare.column_level_diff`
(table_compare.py lines 341-374). -/
def build_plan : List (String × String) → Except UnknownTypeError (List DiffTestSpec)
  | [] => Except.ok []
  | (c, raw) :: rest =>
    match specs_for_column c raw with
    | Except.error e => Except.error e
    | Except.ok l1 =>
      match build_plan rest with
      | Except.error e => Except.error e
      | Except.ok l2 => Except.ok (l1 ++ l2)

/-- Candidate filter of `table_compare.column_level_diff` (table_compare.py
lines 288-298): a dev column survives iff it is also a prod column and is in
the audited allow-list. -/
def candidate_pred (prod_cols audited : List String) (entry : String × String) : Bool :=
  prod_cols.contains entry.1 && audited.contains entry.1

/-- Whole column-level planning pipeline of `table_compare.column_level_diff`:
`dev_info` is the dev snapshot's information-schema rows (column name, raw
data type) in catalog order; `prod_info` the prod snapshot's rows, of which
only the names are used (the source fetches only dev data types,
table_compare.py lines 271-298); `audited` the data-diff allow-list. -/
def column_level_plan (dev_info prod_info : List (String × String))
    (audited : List String) : Except UnknownTypeError (List DiffTestSpec) :=
  build_plan (dev_info.filter (candidate_pred (prod_info.map Prod.fst) audited))

/-- Test value formula `avg_formula` from column_data_test_sql.py line 48. -/
def avg_formula : String := "ROUND(AVG({column_name}),2)"

/-- Test value formula `sum_formula` from column_data_test_sql.py line 49. -/
def sum_formula : String := "ROUND(SUM({column_name}),2)"

/-- Test value formula `min_formula` from column_data_test_sql.py line 50. -/
def min_formula : String := "MIN({column_name})"

/-- Test value formula `max_formula` from column_data_test_sql.py line 51. -/
def max_formula : String := "MAX({column_name})"

/-- Test value formula `unique_formula` from column_data_test_sql.py line 52. -/
def unique_formula : String := "COUNT(DISTINCT {column_name})"

/-- Test value formula `count_nulls_formula` from column_data_test_sql.py line 53. -/
def count_nulls_formula : String := "SUM(CASE WHEN {column_name} IS NULL THEN 1 ELSE 0 END)"

/-- Diff formula `standard_diff_formula` from column_data_test_sql.py line 56. -/
def standard_diff_formula : String := "ROUND(((({dev} - {prod}) / NULLIF({prod}, 0))),2)"

/-- Diff formula `timestamp_diff_formula` from column_data_test_sql.py line 57. -/
def timestamp_diff_formula : String := "TIMESTAMPDIFF(\x27hour\x27, {dev}, {prod})"

/-- Embeds the dict literal `test_formula_mapping` from
`table_compare.column_level_diff` (table_compare.py lines 332-339). -/
def test_formula_mapping : TestName → String
  | TestName.avg => avg_formula
  | TestName.sum => sum_formula
  | TestName.min => min_formula
  | TestName.max => max_formula
  | TestName.count_nulls => count_nulls_formula
  | TestName.unique => unique_formula

/-- Table-level fields of the `test_context` dict built by
`table_compare.column_level_diff` (table_compare.py lines 313-322); these are
fixed per run and do not depend on any column data type. -/
structure TableContext where
  dev_database : String
  dev_schema : String
  dev_table : String
  prod_database : String
  prod_schema : String
  prod_table : String
  dev_freshness_key : String
  prod_freshness_key : String
deriving DecidableEq

/-- Full substitution context for one rendered column-test query: these fields
are exactly what `column_data_test_sql.template.format(**test_context)`
interpolates, so two equal contexts render byte-identical SQL. -/
structure RenderedColumnTest where
  dev_database : String
  dev_schema : String
  dev_table : String
  prod_database : String
  prod_schema : String
  prod_table : String
  dev_freshness_key : String
  prod_freshness_key : String
  column_name : String
  test_name : TestName
  test_formula : String
  diff_formula : String
deriving DecidableEq

/-- Fills the per-test fields of the rendered query the way the inner loop of
`table_compare.column_level_diff` does (table_compare.py lines 347-369):
the value formula gets the column name substituted, the diff formula gets the
two schema names substituted. -/
def render_spec (ctx : TableContext) (s : DiffTestSpec) : RenderedColumnTest :=
  { dev_database := ctx.dev_database
    dev_schema := ctx.dev_schema
    dev_table := ctx.dev_table
    prod_database := ctx.prod_database
    prod_schema := ctx.prod_schema
    prod_table := ctx.prod_table
    dev_freshness_key := ctx.dev_freshness_key
    prod_freshness_key := ctx.prod_freshness_key
    column_name := s.column
    test_name := s.test
    test_formula := (test_formula_mapping s.test).replace "{column_name}" s.column
    diff_formula :=
      match s.diff_formula with
      | DiffFormula.timestamp_diff =>
        (timestamp_diff_formula.replace "{prod}" ctx.prod_schema).replace "{dev}" ctx.dev_schema
      | DiffFormula.standard =>
        (standard_diff_formula.replace "{prod}" ctx.prod_schema).replace "{dev}" ctx.dev_schema }

/-- The ordered list of rendered column-test queries a run of
`table_compare.column_level_diff` submits, one per planned spec. -/
def column_level_rendered (ctx : TableContext) (dev_info prod_info : List (String × String))
    (audited : List String) : Except UnknownTypeError (List RenderedColumnTest) :=
  (column_level_plan dev_info prod_info audited).map (fun specs => specs.map (render_spec ctx))

/-- Row-level diff labels assigned by the CASE expression of
`table_compare.row_level_diff` (table_compare.py lines 414-417). -/
inductive DiffType where
  | addition
  | deletion
  | equal
deriving DecidableEq

/-- Embeds the CASE expression of `table_compare.row_level_diff`
(table_compare.py lines 414-417) on the two joined key columns: addition when
the dev key is non-null and the prod key null, deletion when the dev key is
null and the prod key non-null, equal otherwise. -/
def classify_row {K : Type} (dev_primary_key prod_primary_key : Option K) : DiffType :=
  if dev_primary_key.isSome && prod_primary_key.isNone then DiffType.addition
  else if dev_primary_key.isNone && prod_primary_key.isSome then DiffType.deletion
  else DiffType.equal

/-- SQL equality used by the join predicate
`a.dev_primary_key = b.prod_primary_key` (table_compare.py line 421): a NULL
key compares unknown (not true) against everything, including another NULL. -/
def sqlKeyEq {K : Type} [DecidableEq K] : Option K → Option K → Bool
  | some a, some b => decide (a = b)
  | _, _ => false

/-- The FULL OUTER JOIN of `table_compare.row_level_diff` (table_compare.py
lines 412-422) restricted to the two primary-key columns: matched pairs, plus
each unmatched dev row paired with NULL, plus each unmatched prod row paired
with NULL. -/
def full_outer_join {K : Type} [DecidableEq K] (dev prod : List (Option K)) :
    List (Option K × Option K) :=
  (dev.flatMap (fun d =>
    if (prod.filter (fun p => sqlKeyEq d p)).isEmpty then [(d, (none : Option K))]
    else (prod.filter (fun p => sqlKeyEq d p)).map (fun p => (d, p)))) ++
  ((prod.filter (fun p => dev.all (fun d => ! sqlKeyEq d p))).map
    (fun p => ((none : Option K), p)))

/-- Methods defined on the `schema_compare` class in schema_compare.py
(lines 20-125): the constructor, the table-list helper, the summary diff and
the row-level diff. No column-level method is defined. -/
def schema_compare_methods : List String :=
  ["__init__", "_set_tables_to_compare", "schema_compare_summary_diff",
   "schema_compare_row_level_diff"]

/-- The three method calls the CLI entry point `main` performs in source order
(data_spy.py lines 28-30). -/
def main_calls : List String :=
  ["schema_compare_summary_diff", "schema_compare_column_level_diff",
   "schema_compare_row_level_diff"]

/-- Runs a sequence of method calls against the `schema_compare` instance the
way Python dispatches them: each call first resolves the attribute, raising
AttributeError (the returned name) when the class does not define it. Returns
the calls completed before the failure, and the failing attribute if any. -/
def run_calls : List String → List String × Option String
  | [] => ([], none)
  | m :: rest =>
    if schema_compare_methods.contains m then
      let r := run_calls rest
      (m :: r.1, r.2)
    else ([], some m)

/-- Python runtime errors relevant to scalar metadata lookups. -/
inductive PyRuntimeError where
  | typeError (msg : String)
deriving DecidableEq

/-- Python str() applied to an optional value: `str(None)` is the string
"None". -/
def pythonStr : Option String → String
  | none => "None"
  | some v => v

/-- Embeds `snowflake_ctx.execute_sql_and_return_single_value`
(snowflake_utils.py lines 55-68) applied to a metadata query: the argument is
the state of the catalog row it fetches — `none` when no row exists (then
`cur.fetchone()` is None and subscripting it raises TypeError), `some none`
when a row exists but the selected attribute is SQL NULL (then `fetchone()`
is `(None,)` and the function returns `str(None)`), and `some (some v)` for a
present value. -/
def execute_sql_and_return_single_value (fetched : Option (Option String)) :
    Except PyRuntimeError String :=
  match fetched with
  | none => Except.error (PyRuntimeError.typeError "NoneType object is not subscriptable")
  | some v => Except.ok (pythonStr v)

/-- Embeds `table_compare._get_primary_key` (table_compare.py lines 72-88):
queries the model-meta catalog for the table and returns the scalar through
`execute_sql_and_return_single_value`. The catalog is modelled as a map from
table name to the state of its metadata row. -/
def get_primary_key (catalog : String → Option (Option String)) (table : String) :
    Except PyRuntimeError String :=
  execute_sql_and_return_single_value (catalog table)

/-- Embeds `table_compare._get_freshness_key` (table_compare.py lines 90-107),
identical in shape to the primary-key lookup. -/
def get_freshness_key (catalog : String → Option (Option String)) (table : String) :
    Except PyRuntimeError String :=
  execute_sql_and_return_single_value (catalog table)

end DataSpy

namespace DataSpy

/-- Association-list lookup misses every key that is not in the key column. -/
theorem lookup_eq_none_of_not_mem {β : Type} (l : List (String × β)) (a : String)
    (h : a ∉ l.map Prod.fst) : l.lookup a = none := by
  induction l with
  | nil => rfl
  | cons hd tl ih =>
    obtain ⟨k, v⟩ := hd
    simp only [List.map_cons, List.mem_cons, not_or] at h
    by_cases hk : a = k
    · exact absurd hk h.1
    · have hbeq : (a == k) = false := beq_eq_false_iff_ne.mpr hk
      simp only [List.lookup, hbeq]
      exact ih h.2

/-- In an association list whose keys are distinct, a key determines its
value. -/
theorem assoc_unique {α β : Type} [DecidableEq α] :
    ∀ {l : List (α × β)}, (l.map Prod.fst).Nodup →
      ∀ {c : α} {a b : β}, (c, a) ∈ l → (c, b) ∈ l → a = b := by
  intro l
  induction l with
  | nil => intro _ c a b ha; cases ha
  | cons hd tl ih =>
    intro hnd c a b ha hb
    obtain ⟨k, v⟩ := hd
    simp only [List.map_cons, List.nodup_cons] at hnd
    rcases List.mem_cons.mp ha with h1 | h1 <;> rcases List.mem_cons.mp hb with h2 | h2
    · rw [Prod.mk.injEq] at h1 h2
      exact h1.2.trans h2.2.symm
    · rw [Prod.mk.injEq] at h1
      exact absurd (h1.1 ▸ List.mem_map.mpr ⟨(c, b), h2, rfl⟩) hnd.1
    · rw [Prod.mk.injEq] at h2
      exact absurd (h2.1 ▸ List.mem_map.mpr ⟨(c, a), h1, rfl⟩) hnd.1
    · exact ih hnd.2 h1 h2

/-- Unfolding characterization of a successful `specs_for_column`. -/
theorem specs_for_column_ok_iff {c raw : String} {specs : List DiffTestSpec} :
    specs_for_column c raw = Except.ok specs ↔
      ∃ cls, default_datatype_mapping.lookup raw = some cls ∧
        specs = (tests_to_run cls).map (fun t =>
          ⟨c, t, if cls = DataTypeTest.timestamp ∧ (t = TestName.min ∨ t = TestName.max)
                 then DiffFormula.timestamp_diff else DiffFormula.standard⟩) := by
  unfold specs_for_column
  cases h : default_datatype_mapping.lookup raw with
  | none => simp
  | some cls => simp [eq_comm]

/-- Shape of every spec produced for one candidate column. -/
theorem mem_specs_for_column {c raw : String} {specs : List DiffTestSpec}
    (h : specs_for_column c raw = Except.ok specs) {s : DiffTestSpec} (hs : s ∈ specs) :
    s.column = c ∧ ∃ cls, default_datatype_mapping.lookup raw = some cls ∧
      s.test ∈ tests_to_run cls ∧
      s.diff_formula =
        (if cls = DataTypeTest.timestamp ∧ (s.test = TestName.min ∨ s.test = TestName.max)
         then DiffFormula.timestamp_diff else DiffFormula.standard) := by
  obtain ⟨cls, hcls, rfl⟩ := specs_for_column_ok_iff.mp h
  obtain ⟨t, ht, rfl⟩ := List.mem_map.mp hs
  exact ⟨rfl, cls, hcls, ht, rfl⟩

/-- A successful per-column planning step always emits at least one spec for
its column: every test bundle is non-empty. -/
theorem specs_for_column_column_mem {c raw : String} {specs : List DiffTestSpec}
    (h : specs_for_column c raw = Except.ok specs) : ∃ s ∈ specs, s.column = c := by
  obtain ⟨cls, hcls, rfl⟩ := specs_for_column_ok_iff.mp h
  cases cls <;> exact ⟨_, List.mem_cons_self _ _, rfl⟩

/-- Every spec of a successful plan comes from some candidate column entry. -/
theorem build_plan_mem_elim :
    ∀ {l : List (String × String)} {specs : List DiffTestSpec},
      build_plan l = Except.ok specs → ∀ {s : DiffTestSpec}, s ∈ specs →
        ∃ c raw l1, (c, raw) ∈ l ∧ specs_for_column c raw = Except.ok l1 ∧ s ∈ l1 := by
  intro l
  induction l with
  | nil =>
    intro specs h s hs
    simp only [build_plan, Except.ok.injEq] at h
    subst h
    cases hs
  | cons hd tl ih =>
    intro specs h s hs
    obtain ⟨c0, raw0⟩ := hd
    unfold build_plan at h
    cases h1 : specs_for_column c0 raw0 with
    | error e => simp only [h1] at h; exact Except.noConfusion h
    | ok l1 =>
      simp only [h1] at h
      cases h2 : build_plan tl with
      | error e => simp only [h2] at h; exact Except.noConfusion h
      | ok l2 =>
        simp only [h2, Except.ok.injEq] at h
        subst h
        rcases List.mem_append.mp hs with h3 | h3
        · exact ⟨c0, raw0, l1, List.mem_cons_self _ _, h1, h3⟩
        · obtain ⟨c, raw, l1x, hmem, hok, hsx⟩ := ih h2 h3
          exact ⟨c, raw, l1x, List.mem_cons_of_mem _ hmem, hok, hsx⟩

/-- Each candidate column entry of a successful plan contributes all of its
specs to the plan. -/
theorem build_plan_mem_intro :
    ∀ {l : List (String × String)} {specs : List DiffTestSpec},
      build_plan l = Except.ok specs → ∀ {c raw : String}, (c, raw) ∈ l →
        ∃ l1, specs_for_column c raw = Except.ok l1 ∧ ∀ s ∈ l1, s ∈ specs := by
  intro l
  induction l with
  | nil => intro specs h c raw hcr; cases hcr
  | cons hd tl ih =>
    intro specs h c raw hcr
    obtain ⟨c0, raw0⟩ := hd
    unfold build_plan at h
    cases h1 : specs_for_column c0 raw0 with
    | error e => simp only [h1] at h; exact Except.noConfusion h
    | ok l1 =>
      simp only [h1] at h
      cases h2 : build_plan tl with
      | error e => simp only [h2] at h; exact Except.noConfusion h
      | ok l2 =>
        simp only [h2, Except.ok.injEq] at h
        subst h
        rcases List.mem_cons.mp hcr with heq | htl
        · rw [Prod.mk.injEq] at heq
          refine ⟨l1, ?_, fun s hs => List.mem_append_left _ hs⟩
          rw [heq.1, heq.2]
          exact h1
        · obtain ⟨l1x, hok, hsub⟩ := ih h2 htl
          exact ⟨l1x, hok, fun s hs => List.mem_append_right _ (hsub s hs)⟩

/-- A candidate column whose raw type is not in the classification table makes
the whole plan abort with an error. -/
theorem build_plan_error_of_unknown :
    ∀ {l : List (String × String)} {c raw : String}, (c, raw) ∈ l →
      default_datatype_mapping.lookup raw = none →
        ∃ e, build_plan l = Except.error e := by
  intro l
  induction l with
  | nil => intro c raw hcr _; cases hcr
  | cons hd tl ih =>
    intro c raw hcr hnone
    obtain ⟨c0, raw0⟩ := hd
    rcases List.mem_cons.mp hcr with heq | htl
    · rw [Prod.mk.injEq] at heq
      have hnone0 : default_datatype_mapping.lookup raw0 = none := heq.2 ▸ hnone
      refine ⟨UnknownTypeError.keyError raw0, ?_⟩
      have h1 : specs_for_column c0 raw0 = Except.error (UnknownTypeError.keyError raw0) := by
        unfold specs_for_column
        rw [hnone0]
      unfold build_plan
      simp only [h1]
    · cases h1 : specs_for_column c0 raw0 with
      | error e => exact ⟨e, by unfold build_plan; simp only [h1]⟩
      | ok l1 =>
        obtain ⟨e, he⟩ := ih htl hnone
        exact ⟨e, by unfold build_plan; simp only [h1, he]⟩

/-- The candidate predicate holds exactly for columns present on the prod side
and in the audit allow-list. -/
theorem candidate_pred_iff {prod_cols audited : List String} {entry : String × String} :
    candidate_pred prod_cols audited entry = true ↔
      entry.1 ∈ prod_cols ∧ entry.1 ∈ audited := by
  simp [candidate_pred]

/-- Claim C4: a column appears in the column-level diff plan iff it belongs to
the intersection of the dev columns, the prod columns, and the audited
allow-list; in particular a column present on both sides but absent from the
allow-list is never tested. -/
theorem plan_membership_iff (dev_info prod_info : List (String × String))
    (audited : List String) (specs : List DiffTestSpec)
    (h : column_level_plan dev_info prod_info audited = Except.ok specs) (c : String) :
    (∃ s ∈ specs, s.column = c) ↔
      (c ∈ dev_info.map Prod.fst ∧ c ∈ prod_info.map Prod.fst ∧ c ∈ audited) := by
  unfold column_level_plan at h
  constructor
  · rintro ⟨s, hs, rfl⟩
    obtain ⟨c0, raw, l1, hmem, hok, hs1⟩ := build_plan_mem_elim h hs
    have hcol : s.column = c0 := (mem_specs_for_column hok hs1).1
    obtain ⟨hdev, hpred⟩ := List.mem_filter.mp hmem
    obtain ⟨hp, ha⟩ := candidate_pred_iff.mp hpred
    rw [hcol]
    exact ⟨List.mem_map.mpr ⟨(c0, raw), hdev, rfl⟩, hp, ha⟩
  · rintro ⟨hdev, hp, ha⟩
    obtain ⟨⟨c1, raw⟩, hmem, hfst⟩ := List.mem_map.mp hdev
    have hc1 : c1 = c := hfst
    subst hc1
    have hfilter : (c1, raw) ∈ dev_info.filter (candidate_pred (prod_info.map Prod.fst) audited) :=
      List.mem_filter.mpr ⟨hmem, candidate_pred_iff.mpr ⟨hp, ha⟩⟩
    obtain ⟨l1, hok, hsub⟩ := build_plan_mem_intro h hfilter
    obtain ⟨s, hs1, hcol⟩ := specs_for_column_column_mem hok
    exact ⟨s, hsub s hs1, hcol⟩

/-- Witness for plan_membership_iff at scenario E of the spec: dev and prod
both have columns id, amount, notes; only id and amount are audited; notes
never appears in the plan. -/
theorem plan_membership_iff_witness :
    ∃ specs, column_level_plan
        [("id", "number"), ("amount", "number"), ("notes", "text")]
        [("id", "number"), ("amount", "number"), ("notes", "text")]
        ["id", "amount"] = Except.ok specs ∧
      ((∃ s ∈ specs, s.column = "notes") ↔
        ("notes" ∈ ([("id", "number"), ("amount", "number"), ("notes", "text")] :
            List (String × String)).map Prod.fst ∧
          "notes" ∈ ([("id", "number"), ("amount", "number"), ("notes", "text")] :
            List (String × String)).map Prod.fst ∧
          "notes" ∈ ["id", "amount"])) :=
  ⟨_, rfl, plan_membership_iff
    [("id", "number"), ("amount", "number"), ("notes", "text")]
    [("id", "number"), ("amount", "number"), ("notes", "text")]
    ["id", "amount"] _ rfl "notes"⟩

/-- Claim C5: a spec constructed by the planner carries the hour-difference
diff formula exactly when its column's raw type classifies as temporal
("timestamp" bucket) and the test is min or max; otherwise it carries the
percentage-change formula. -/
theorem diff_formula_selection (dev_info prod_info : List (String × String))
    (audited : List String) (specs : List DiffTestSpec)
    (h : column_level_plan dev_info prod_info audited = Except.ok specs)
    (hnd : (dev_info.map Prod.fst).Nodup)
    (s : DiffTestSpec) (hs : s ∈ specs) (raw : String)
    (hraw : (s.column, raw) ∈ dev_info) :
    s.diff_formula = DiffFormula.timestamp_diff ↔
      (default_datatype_mapping.lookup raw = some DataTypeTest.timestamp ∧
        (s.test = TestName.min ∨ s.test = TestName.max)) := by
  unfold column_level_plan at h
  obtain ⟨c0, raw0, l1, hmem, hok, hs1⟩ := build_plan_mem_elim h hs
  obtain ⟨hcol, cls, hcls, htest, hform⟩ := mem_specs_for_column hok hs1
  have hdev0 : (s.column, raw0) ∈ dev_info := by
    rw [hcol]
    exact (List.mem_filter.mp hmem).1
  have hraw0 : raw0 = raw := assoc_unique hnd hdev0 hraw
  subst hraw0
  rw [hform]
  by_cases hcond : cls = DataTypeTest.timestamp ∧ (s.test = TestName.min ∨ s.test = TestName.max)
  · rw [if_pos hcond]
    constructor
    · intro _
      exact ⟨hcond.1 ▸ hcls, hcond.2⟩
    · intro _
      rfl
  · rw [if_neg hcond]
    constructor
    · intro hstd
      exact DiffFormula.noConfusion hstd
    · rintro ⟨hts, htm⟩
      rw [hcls] at hts
      injection hts with hc
      exact absurd ⟨hc, htm⟩ hcond

/-- Witness for diff_formula_selection: the min test planned for a date column
ts carries the hour-difference formula. -/
theorem diff_formula_selection_witness :
    (⟨"ts", TestName.min, DiffFormula.timestamp_diff⟩ : DiffTestSpec).diff_formula =
        DiffFormula.timestamp_diff ↔
      (default_datatype_mapping.lookup "date" = some DataTypeTest.timestamp ∧
        ((⟨"ts", TestName.min, DiffFormula.timestamp_diff⟩ : DiffTestSpec).test = TestName.min ∨
          (⟨"ts", TestName.min, DiffFormula.timestamp_diff⟩ : DiffTestSpec).test =
            TestName.max)) :=
  diff_formula_selection [("ts", "date"), ("amt", "number")] [("ts", "date"), ("amt", "number")]
    ["ts", "amt"] _ rfl (by decide) ⟨"ts", TestName.min, DiffFormula.timestamp_diff⟩ (by decide)
    "date" (by decide)

/-- Claim C7: each semantic class has its fixed ordered test bundle — numeric:
avg, sum, min, max, count_nulls; text: count_nulls, unique; boolean:
count_nulls; temporal: min, max — and the specs planned for a candidate column
follow exactly its class bundle in order. -/
theorem test_bundles_by_class (c raw : String) (cls : DataTypeTest)
    (h : default_datatype_mapping.lookup raw = some cls) :
    (∃ specs, specs_for_column c raw = Except.ok specs ∧
      specs.map DiffTestSpec.test = tests_to_run cls) ∧
    tests_to_run DataTypeTest.number =
      [TestName.avg, TestName.sum, TestName.min, TestName.max, TestName.count_nulls] ∧
    tests_to_run DataTypeTest.text = [TestName.count_nulls, TestName.unique] ∧
    tests_to_run DataTypeTest.boolean = [TestName.count_nulls] ∧
    tests_to_run DataTypeTest.timestamp = [TestName.min, TestName.max] := by
  refine ⟨⟨(tests_to_run cls).map (fun t =>
      ⟨c, t, if cls = DataTypeTest.timestamp ∧ (t = TestName.min ∨ t = TestName.max)
             then DiffFormula.timestamp_diff else DiffFormula.standard⟩), ?_, ?_⟩,
    rfl, rfl, rfl, rfl⟩
  · unfold specs_for_column
    rw [h]
  · rw [List.map_map]
    exact List.map_id _

/-- Witness for test_bundles_by_class on a float column, which classifies as
numeric. -/
theorem test_bundles_by_class_witness :
    (∃ specs, specs_for_column "amt" "float" = Except.ok specs ∧
      specs.map DiffTestSpec.test = tests_to_run DataTypeTest.number) ∧
    tests_to_run DataTypeTest.number =
      [TestName.avg, TestName.sum, TestName.min, TestName.max, TestName.count_nulls] ∧
    tests_to_run DataTypeTest.text = [TestName.count_nulls, TestName.unique] ∧
    tests_to_run DataTypeTest.boolean = [TestName.count_nulls] ∧
    tests_to_run DataTypeTest.timestamp = [TestName.min, TestName.max] :=
  test_bundles_by_class "amt" "float" DataTypeTest.number (by decide)

/-- Claim C8: a candidate column (present in dev, prod, and the allow-list)
whose raw type is not one of number, float, text, boolean, timestamp_ntz,
timestamp_tz, date has no semantic class, and its KeyError aborts the whole
table's column-level diff: the plan is an error, so the column is neither
silently skipped nor given a default class. -/
theorem unknown_type_aborts_plan (dev_info prod_info : List (String × String))
    (audited : List String) (c raw : String)
    (hmem : (c, raw) ∈ dev_info)
    (hprod : c ∈ prod_info.map Prod.fst) (haud : c ∈ audited)
    (hunk : raw ∉ ["number", "float", "text", "boolean", "timestamp_ntz",
      "timestamp_tz", "date"]) :
    default_datatype_mapping.lookup raw = none ∧
      ∃ e, column_level_plan dev_info prod_info audited = Except.error e := by
  have hkeys : raw ∉ default_datatype_mapping.map Prod.fst := by
    simpa [default_datatype_mapping] using hunk
  have hnone : default_datatype_mapping.lookup raw = none :=
    lookup_eq_none_of_not_mem _ _ hkeys
  refine ⟨hnone, ?_⟩
  have hfilter : (c, raw) ∈ dev_info.filter (candidate_pred (prod_info.map Prod.fst) audited) :=
    List.mem_filter.mpr ⟨hmem, candidate_pred_iff.mpr ⟨hprod, haud⟩⟩
  exact build_plan_error_of_unknown hfilter hnone

/-- Witness for unknown_type_aborts_plan: an audited geography column aborts
the plan. -/
theorem unknown_type_aborts_plan_witness :
    default_datatype_mapping.lookup "geography" = none ∧
      ∃ e, column_level_plan [("geo", "geography")] [("geo", "geography")] ["geo"] =
        Except.error e :=
  unknown_type_aborts_plan [("geo", "geography")] [("geo", "geography")] ["geo"]
    "geo" "geography" (by decide) (by decide) (by decide) (by decide)

/-- Claim C10: the column-level plan and the rendered queries depend on the
prod snapshot only through its column names: two runs whose prod information
schemas have the same column names, whatever their data types, produce
identical plans and identical rendered query contexts. -/
theorem prod_types_noninterference (ctx : TableContext)
    (dev_info prodA prodB : List (String × String)) (audited : List String)
    (h : prodA.map Prod.fst = prodB.map Prod.fst) :
    column_level_plan dev_info prodA audited = column_level_plan dev_info prodB audited ∧
      column_level_rendered ctx dev_info prodA audited =
        column_level_rendered ctx dev_info prodB audited := by
  have hplan : column_level_plan dev_info prodA audited =
      column_level_plan dev_info prodB audited := by
    unfold column_level_plan
    rw [h]
  refine ⟨hplan, ?_⟩
  unfold column_level_rendered
  rw [hplan]

/-- Claim C1 counterexample: at dev count 100 and prod count 0 the rendered
summary-diff deltas raise a division-by-zero error instead of evaluating to
null, so the deltas are not guarded. -/
theorem summary_diff_unguarded_counterexample :
    rowcount_diff (some 100) (some 0) = Except.error SqlError.divByZero ∧
    column_count_diff (some 5) (some 0) = Except.error SqlError.divByZero ∧
    distinct_pkey_diff (some 100) (some 0) = Except.error SqlError.divByZero ∧
    rowcount_diff (some 100) (some 0) ≠ Except.ok none := by
  refine ⟨?_, ?_, ?_, ?_⟩ <;>
    simp [rowcount_diff, column_count_diff, distinct_pkey_diff, sqlSub, sqlDiv]

/-- Claim C1 amended: the three summary-diff percentage deltas divide directly
by the production-side count with no guard, so whenever that count is zero
each delta raises a division-by-zero error rather than evaluating to null. -/
theorem summary_diff_zero_prod_errors (rowcount_dev column_count_dev distinct_pkey_dev : ℚ) :
    rowcount_diff (some rowcount_dev) (some 0) = Except.error SqlError.divByZero ∧
    column_count_diff (some column_count_dev) (some 0) = Except.error SqlError.divByZero ∧
    distinct_pkey_diff (some distinct_pkey_dev) (some 0) = Except.error SqlError.divByZero := by
  refine ⟨?_, ?_, ?_⟩ <;>
    simp [rowcount_diff, column_count_diff, distinct_pkey_diff, sqlSub, sqlDiv]

/-- Claim C6: the percentage-change diff formula is guarded by NULLIF, so when
the production-side statistic is zero it evaluates to null — never a
division-by-zero error and never an infinite value — for every dev-side
value including null. -/
theorem standard_diff_null_on_zero_prod (dev : SqlVal) :
    standard_diff_eval dev (some 0) = Except.ok none := by
  cases dev <;> simp [standard_diff_eval, sqlSub, sqlDiv, nullif, Except.map, sqlRound2]

/-- Every row of the full outer join is a matched pair of non-null keys, an
unmatched dev row paired with NULL, or an unmatched prod row paired with
NULL. -/
theorem mem_full_outer_join {K : Type} [DecidableEq K] {dev prod : List (Option K)}
    {r : Option K × Option K} (h : r ∈ full_outer_join dev prod) :
    (∃ a b, r = (some a, some b)) ∨ (∃ d ∈ dev, r = (d, none)) ∨
      (∃ p ∈ prod, r = (none, p)) := by
  unfold full_outer_join at h
  rcases List.mem_append.mp h with h1 | h1
  · obtain ⟨d, hd, hr⟩ := List.mem_flatMap.mp h1
    by_cases he : (prod.filter (fun p => sqlKeyEq d p)).isEmpty
    · rw [if_pos he] at hr
      have hr1 : r = (d, none) := by simpa using hr
      exact Or.inr (Or.inl ⟨d, hd, hr1⟩)
    · rw [if_neg he] at hr
      obtain ⟨p, hp, hrp⟩ := List.mem_map.mp hr
      have hkey : sqlKeyEq d p = true := (List.mem_filter.mp hp).2
      cases d with
      | none => simp [sqlKeyEq] at hkey
      | some a =>
        cases p with
        | none => simp [sqlKeyEq] at hkey
        | some b => exact Or.inl ⟨a, b, hrp.symm⟩
  · obtain ⟨p, hp, hrp⟩ := List.mem_map.mp h1
    exact Or.inr (Or.inr ⟨p, (List.mem_filter.mp hp).1, hrp.symm⟩)

/-- Claim C3 amended: every joined row gets exactly one of the three labels;
addition implies the dev key is present and the prod key null; deletion
implies the dev key is null and the prod key present; and provided every
source row's primary key is non-null, a row labelled equal has both keys
present. (A source row with a null primary key matches nothing and is
labelled equal with both joined keys null.) -/
theorem row_diff_classification_amended {K : Type} [DecidableEq K]
    (dev prod : List (Option K))
    (hdev : ∀ k ∈ dev, k.isSome) (hprod : ∀ k ∈ prod, k.isSome) :
    (∀ dk pk : Option K,
      (classify_row dk pk = DiffType.addition ∨ classify_row dk pk = DiffType.deletion ∨
        classify_row dk pk = DiffType.equal) ∧
      (classify_row dk pk = DiffType.addition → dk.isSome ∧ pk = none) ∧
      (classify_row dk pk = DiffType.deletion → dk = none ∧ pk.isSome)) ∧
    (∀ r ∈ full_outer_join dev prod,
      classify_row r.1 r.2 = DiffType.equal → r.1.isSome ∧ r.2.isSome) := by
  constructor
  · intro dk pk
    cases dk <;> cases pk <;> simp [classify_row]
  · intro r hr heq
    rcases mem_full_outer_join hr with ⟨a, b, rfl⟩ | ⟨d, hd, rfl⟩ | ⟨p, hp, rfl⟩
    · simp
    · have hds : d.isSome := hdev d hd
      obtain ⟨a, rfl⟩ := Option.isSome_iff_exists.mp hds
      simp [classify_row] at heq
    · have hps : p.isSome := hprod p hp
      obtain ⟨b, rfl⟩ := Option.isSome_iff_exists.mp hps
      simp [classify_row] at heq

/-- Claim C3 counterexample: a dev snapshot containing one row with a NULL
primary key joins to nothing, and the resulting row is labelled equal even
though neither primary key is present. -/
theorem row_diff_null_key_counterexample :
    ((none, none) : Option ℕ × Option ℕ) ∈
        full_outer_join [(none : Option ℕ)] ([] : List (Option ℕ)) ∧
    classify_row (none : Option ℕ) (none : Option ℕ) = DiffType.equal ∧
    ¬ ((none : Option ℕ).isSome ∧ (none : Option ℕ).isSome) := by
  decide

/-- Witness for row_diff_classification_amended at scenario B of the spec:
dev keys 1, 2, 3 against prod keys 2, 3, 4, all non-null. -/
theorem row_diff_classification_witness :
    (∀ dk pk : Option ℕ,
      (classify_row dk pk = DiffType.addition ∨ classify_row dk pk = DiffType.deletion ∨
        classify_row dk pk = DiffType.equal) ∧
      (classify_row dk pk = DiffType.addition → dk.isSome ∧ pk = none) ∧
      (classify_row dk pk = DiffType.deletion → dk = none ∧ pk.isSome)) ∧
    (∀ r ∈ full_outer_join [some 1, some 2, some 3] [some 2, some 3, some 4],
      classify_row r.1 r.2 = DiffType.equal → r.1.isSome ∧ r.2.isSome) :=
  row_diff_classification_amended [some 1, some 2, some 3] [some 2, some 3, some 4]
    (by decide) (by decide)

/-- Claim C2: the CLI entry point attempts the summary, column-level and
row-level diffs in that order, but the schema_compare class defines no
schema_compare_column_level_diff method, so every invocation dispatches only
the summary step and then fails with AttributeError on the column-level call;
the row-level diff is never reached. -/
theorem cli_missing_column_level_diff :
    "schema_compare_column_level_diff" ∉ schema_compare_methods ∧
    run_calls main_calls =
      (["schema_compare_summary_diff"], some "schema_compare_column_level_diff") := by
  decide

/-- Claim C9: when the catalog row for a table exists but its key attribute is
SQL NULL, the scalar lookup returns the Python string "None" instead of
failing, so the diff run proceeds with a fallback key value; only the
row-missing case raises an error (a TypeError, not a dedicated metadata
error). -/
theorem null_metadata_returns_none_string :
    get_primary_key (fun _ => some none) "fct_orders" = Except.ok "None" ∧
    get_freshness_key (fun _ => some none) "fct_orders" = Except.ok "None" ∧
    get_primary_key (fun _ => none) "fct_orders" =
      Except.error (PyRuntimeError.typeError "NoneType object is not subscriptable") :=
  ⟨rfl, rfl, rfl⟩

/-- Witness for prod_types_noninterference: changing the prod-side type of
column amt from number to text changes neither the plan nor the rendered
queries. -/
theorem prod_types_noninterference_witness :
    column_level_plan [("amt", "number")] [("amt", "number")] ["amt"] =
        column_level_plan [("amt", "number")] [("amt", "text")] ["amt"] ∧
      column_level_rendered
          ⟨"analytics", "dev_s", "t", "analytics", "prod_s", "t", "f", "f"⟩
          [("amt", "number")] [("amt", "number")] ["amt"] =
        column_level_rendered
          ⟨"analytics", "dev_s", "t", "analytics", "prod_s", "t", "f", "f"⟩
          [("amt", "number")] [("amt", "text")] ["amt"] :=
  prod_types_noninterference _ _ _ _ _ rfl

end DataSpy
